import Mathlib

/-!
Verification development for the ANBIMA bond-data orchestration script
(`src/main.py`).  The script authenticates against a vendor HTTP API with a
file-cached bearer token, fetches daily bond records over a window of
business days, assembles them into one table, and computes an annualized
volatility per maturity for one instrument type.

The Python code is shallowly embedded below:
  - `generate_token` embeds `anbima_api.generate_token` (main.py lines 31-67),
    with the HTTP response and the current clock passed as explicit inputs and
    the performed effects (network calls, file write, stored token) returned
    in a `GenResult` record.
  - `get_data_by_date` embeds `anbima_api.get_data_by_date` (lines 69-82).
  - `buildTable` embeds the fetch-and-concat loop of `main` (lines 108-120).
  - `volatility` embeds the `volatility` function (lines 84-94); pandas NaN
    outcomes (a sample standard deviation over fewer than two values) are
    embedded as `Option.none`, and the float arithmetic as real arithmetic.
  - `dates_in_range` models the bizdays calendar calls of line 108; the
    bizdays library is not part of this repository, so it is modelled from
    the specification text.
-/

/-! ## Credential store and token manager (main.py lines 26-67) -/

/-- Errors raised by the embedded Python code.  `nameError` stands for a
Python `NameError` or `UnboundLocalError` on the given variable name. -/
inductive PyError where
  | nameError (name : String)
  | tokenGenFailed (status : Nat) (body : String)
  | dataFetchFailed (status : Nat) (body : String)
  | tokenNotGenerated
deriving DecidableEq

/-- The `token_info` object of the credential file.  A field holds `none`
when the corresponding JSON key is absent (Python `dict.get` returns
`None`). -/
structure TokenInfo where
  access_token : Option String := none
  expires_at : Option ℚ := none
deriving DecidableEq

/-- A parsed credential file: `{client_id, client_secret, token_info}`.
`none` models an absent key. -/
structure Credentials where
  client_id : Option String := none
  client_secret : Option String := none
  token_info : Option TokenInfo := none
deriving DecidableEq

/-- The on-disk state of the credential file as `generate_token` finds it:
missing, present but not valid JSON, or parsed. -/
inductive CredFile where
  | missing
  | unparsable
  | parsed (c : Credentials)
deriving DecidableEq

/-- The token-endpoint HTTP response: status code, the `access_token` and
`expires_in` fields of the response JSON (absent keys are `none`), and the
raw body text used in error messages. -/
structure TokenResponse where
  status : Nat
  access_token : Option String := none
  expires_in : Option ℚ := none
  body : String := ""
deriving DecidableEq

/-- Observable outcome of one `generate_token` call: the raised error (if
any), the value of `self.token` afterwards, how many network requests were
issued, and the credential record written back to disk (if any). -/
structure GenResult where
  error : Option PyError
  token : Option String
  networkCalls : Nat
  written : Option Credentials
deriving DecidableEq

/-- The Python truthiness test of main.py line 43,
`access_token and expires_at and now < expires_at`: an absent or empty
`access_token` and an absent or zero `expires_at` are falsy. -/
def cacheValid (ti : TokenInfo) (now : ℚ) : Bool :=
  match ti.access_token, ti.expires_at with
  | some t, some e => if t = "" then false else if e = 0 then false else decide (now < e)
  | _, _ => false

/-- Embedding of `anbima_api.generate_token` (main.py lines 31-67).

The try-block (lines 34-47) reads and parses the credential file, binding
the local variables `credentials`, `client_id`, `client_secret` in that
order; any exception is swallowed by `except Exception: pass`.  When the
file is missing or unparsable, or the `client_id` key is absent, no binding
of `client_id` is made, so building the refresh request at line 54 raises
`NameError` on the never-assigned global `client_id` before any network
traffic; when only `client_secret` is absent the same happens on the local
`client_secret`.  With both keys bound, a valid cached token is returned
with no network call and no write; otherwise one POST is issued and, on
status 200 or 201, the token is stored and the credentials are rewritten
with a fresh `token_info` (the two `datetime.utcnow()` calls of lines 42
and 62 are modelled as the single instant `now`). -/
def generate_token (file : CredFile) (now : ℚ) (resp : TokenResponse) : GenResult :=
  match file with
  | .missing =>
      { error := some (.nameError "client_id"), token := none, networkCalls := 0, written := none }
  | .unparsable =>
      { error := some (.nameError "client_id"), token := none, networkCalls := 0, written := none }
  | .parsed c =>
    match c.client_id, c.client_secret with
    | none, _ =>
        { error := some (.nameError "client_id"), token := none, networkCalls := 0, written := none }
    | some _, none =>
        { error := some (.nameError "client_secret"), token := none, networkCalls := 0, written := none }
    | some _, some _ =>
      let ti := c.token_info.getD {}
      if cacheValid ti now then
        { error := none, token := ti.access_token, networkCalls := 0, written := none }
      else if resp.status = 200 ∨ resp.status = 201 then
        { error := none, token := resp.access_token, networkCalls := 1,
          written := some { c with token_info := some ⟨resp.access_token, some (now + resp.expires_in.getD 3600 - 60)⟩ } }
      else
        { error := some (.tokenGenFailed resp.status resp.body), token := none,
          networkCalls := 1, written := none }

/-! ## Data fetcher (main.py lines 69-82) and dataset assembly (lines 108-120) -/

/-- A data-endpoint JSON body: either an array (each element one record) or
a single object (exactly one record).  Record payloads are kept abstract as
strings. -/
inductive JsonData where
  | arr (items : List String)
  | obj (o : String)
deriving DecidableEq

/-- The data-endpoint HTTP response for one date. -/
structure DataResponse where
  status : Nat
  payload : JsonData := .arr []
  body : String := ""
deriving DecidableEq

/-- Observable outcome of one `get_data_by_date` call. -/
structure FetchResult where
  result : Except PyError JsonData
  networkCalls : Nat

/-- Embedding of `anbima_api.get_data_by_date` (main.py lines 69-82): a
falsy `self.token` (absent or empty) raises the precondition error before
any request; otherwise one GET is issued, a 200 response yields the JSON
body, and any other status raises an error carrying status and body. -/
def get_data_by_date (token : Option String) (resp : DataResponse) : FetchResult :=
  match token with
  | none => { result := .error .tokenNotGenerated, networkCalls := 0 }
  | some t =>
    if t = "" then { result := .error .tokenNotGenerated, networkCalls := 0 }
    else if resp.status = 200 then { result := .ok resp.payload, networkCalls := 1 }
    else { result := .error (.dataFetchFailed resp.status resp.body), networkCalls := 1 }

/-- One row of the assembled table: the vendor record payload plus the
`data_referencia` column set at main.py line 116. -/
structure MRow where
  payload : String
  data_referencia : String
deriving DecidableEq

/-- Lines 112-115 of main.py: a JSON list becomes one row per element, a
single JSON object becomes exactly one row. -/
def toRows : JsonData → List String
  | .arr xs => xs
  | .obj o => [o]

/-- The rows one date contributes to the table: its records in vendor order,
each tagged with that reference date (main.py lines 112-116). -/
def tagRows (dataOf : String → JsonData) (d : String) : List MRow :=
  (toRows (dataOf d)).map (fun p => { payload := p, data_referencia := d })

/-- Embedding of the fetch loop of `main` (main.py lines 108-120).  Dates
are processed in list order; each date is fetched exactly once; the first
fetch error aborts the loop.  Returns the dates actually fetched (in order)
together with the assembled table or the propagated error. -/
def buildTable (fetch : String → Except PyError JsonData) :
    List String → List String × Except PyError (List MRow)
  | [] => ([], .ok [])
  | d :: ds =>
    match fetch d with
    | .error e => ([d], .error e)
    | .ok data =>
      match buildTable fetch ds with
      | (fetched, .error e) => (d :: fetched, .error e)
      | (fetched, .ok tbl) =>
          (d :: fetched,
           .ok (((toRows data).map (fun p => { payload := p, data_referencia := d })) ++ tbl))

/-! ## Volatility calculator (main.py lines 84-94) -/

/-- One row of the unified dataframe as `volatility` reads it: instrument
type, maturity, indicative rate (the `astype(float)` value, embedded as a
rational) and reference date. -/
structure Row where
  tipo_titulo : String
  data_vencimento : String
  taxa_indicativa : ℚ
  data_referencia : String
deriving DecidableEq

/-- `pandas.unique`: the distinct values of a column in order of first
appearance (main.py line 90). -/
def uniqueFirstAux (seen : List String) : List String → List String
  | [] => []
  | x :: xs =>
    if x ∈ seen then uniqueFirstAux seen xs
    else x :: uniqueFirstAux (x :: seen) xs

/-- Distinct column values in first-appearance order. -/
def uniqueFirst (l : List String) : List String :=
  uniqueFirstAux [] l

/-- The log-return transform of main.py line 91, `np.log(1 + x / 100)`. -/
noncomputable def logReturn (r : ℚ) : ℝ :=
  Real.log (1 + (r : ℝ) / 100)

/-- `Series.diff()`: consecutive differences.  pandas places NaN in the
first slot and `Series.std()` skips NaN values, so the embedding keeps just
the `n - 1` real differences. -/
def diffs (xs : List ℝ) : List ℝ :=
  List.zipWith (fun a b => a - b) xs.tail xs

/-- `Series.std()`: sample standard deviation with the `N - 1` denominator
over the non-NaN values.  With fewer than two values pandas returns NaN,
embedded as `none`. -/
noncomputable def sampleStd (xs : List ℝ) : Option ℝ :=
  if 2 ≤ xs.length then
    some (Real.sqrt
      ((xs.map (fun x => (x - xs.sum / (xs.length : ℝ)) ^ 2)).sum / ((xs.length : ℝ) - 1)))
  else none

/-- The per-maturity value of main.py line 91: log-return transform, first
difference, sample standard deviation, annualization by `sqrt 252`.  A NaN
standard deviation stays NaN through the multiplication, hence `Option.map`. -/
noncomputable def annVol (rates : List ℚ) : Option ℝ :=
  (sampleStd (diffs (rates.map logReturn))).map (fun s => s * Real.sqrt 252)

/-- Embedding of `volatility` (main.py lines 84-94): filter the table to the
requested instrument type, then for each maturity in first-appearance order
store the annualized standard deviation of the differenced log-return
series of that maturity group (group rows keep table order, which is
reference-date order by assembly).  The Python dict is embedded as an
association list in insertion order. -/
noncomputable def volatility (df : List Row) (asset_tp : String) : List (String × Option ℝ) :=
  let f := df.filter (fun r => r.tipo_titulo == asset_tp)
  (uniqueFirst (f.map (fun r => r.data_vencimento))).map (fun m =>
    (m, annVol ((f.filter (fun r => r.data_vencimento == m)).map (fun r => r.taxa_indicativa))))

/-! ## Business-day calendar (main.py line 108)

Modelled from the spec: the bizdays `Calendar` with its `seq` and `offset`
members is an external library, not part of this repository source.
Following section 4.3 of the specification, a calendar is a strictly
ascending list of business days (encoded as integers), `bizSeq` returns the
business days between its endpoints inclusive in ascending order, and
`bizOffsetBack` shifts a date back a number of business days. -/

/-- Modelled from the spec: `cal.seq(a, b)` — the business days `d` of the
calendar with `a ≤ d ≤ b`, in calendar (ascending) order. -/
def bizSeq (days : List ℤ) (a b : ℤ) : List ℤ :=
  days.filter (fun d => decide (a ≤ d) && decide (d ≤ b))

/-- Modelled from the spec: `cal.offset(d, -n)` — the date `n` business
days before `d`: among the business days not after `d`, the `n`-th counting
back from the last (with a fallback of `d - n` when the calendar is
exhausted). -/
def bizOffsetBack (days : List ℤ) (d : ℤ) (n : ℕ) : ℤ :=
  (((days.filter (fun x => decide (x ≤ d))).reverse).drop n).headD (d - (n : ℤ))

/-- Modelled from the spec: the date sequence fetched by the orchestration,
`cal.seq(cal.offset(today, -offset_days), today)` (main.py line 108). -/
def dates_in_range (days : List ℤ) (today : ℤ) (offset_days : ℕ) : List ℤ :=
  bizSeq days (bizOffsetBack days today offset_days) today

/-! ## Helper lemmas for the volatility calculator -/

theorem length_diffs (xs : List ℝ) : (diffs xs).length = xs.length - 1 := by
  simp [diffs]

theorem annVol_eq_none_of_short (rates : List ℚ) (h : rates.length < 3) :
    annVol rates = none := by
  have hlen : ¬ 2 ≤ (diffs (rates.map logReturn)).length := by
    rw [length_diffs, List.length_map]; omega
  unfold annVol sampleStd
  rw [if_neg hlen]
  rfl

theorem mem_uniqueFirstAux (m : String) (l : List String) :
    ∀ seen : List String, m ∈ uniqueFirstAux seen l ↔ m ∈ l ∧ m ∉ seen := by
  induction l with
  | nil => intro seen; simp [uniqueFirstAux]
  | cons x xs ih =>
    intro seen
    simp only [uniqueFirstAux]
    by_cases hx : x ∈ seen
    · rw [if_pos hx, ih]
      constructor
      · rintro ⟨h1, h2⟩; exact ⟨List.mem_cons_of_mem _ h1, h2⟩
      · rintro ⟨h1, h2⟩
        rcases List.mem_cons.mp h1 with rfl | h1
        · exact absurd hx h2
        · exact ⟨h1, h2⟩
    · rw [if_neg hx]
      constructor
      · intro h1
        rcases List.mem_cons.mp h1 with rfl | h1
        · exact ⟨List.mem_cons_self _ _, hx⟩
        · rcases (ih (x :: seen)).mp h1 with ⟨h2, h3⟩
          exact ⟨List.mem_cons_of_mem _ h2, fun hc => h3 (List.mem_cons_of_mem _ hc)⟩
      · rintro ⟨h1, h2⟩
        by_cases hmx : m = x
        · subst hmx; exact List.mem_cons_self _ _
        · rcases List.mem_cons.mp h1 with h3 | h3
          · exact absurd h3 hmx
          · refine List.mem_cons_of_mem _ ((ih (x :: seen)).mpr ⟨h3, fun hc => ?_⟩)
            rcases List.mem_cons.mp hc with h4 | h4
            · exact hmx h4
            · exact h2 h4

theorem mem_uniqueFirst (m : String) (l : List String) :
    m ∈ uniqueFirst l ↔ m ∈ l := by
  simp [uniqueFirst, mem_uniqueFirstAux]

/-! ## Claims about the volatility calculator -/

/-- C9: for every table and instrument type such that no row carries the
requested instrument-type code, `volatility` returns an empty mapping. -/
theorem volatility_no_match_empty (df : List Row) (tp : String)
    (h : ∀ r ∈ df, r.tipo_titulo ≠ tp) : volatility df tp = [] := by
  have hf : df.filter (fun r => r.tipo_titulo == tp) = [] := by
    rw [List.filter_eq_nil_iff]
    intro r hr
    simp [h r hr]
  simp [volatility, hf, uniqueFirst, uniqueFirstAux]

/-- C9 witness: a concrete table with only NTN-F rows yields an empty
mapping for LTN. -/
theorem volatility_no_match_empty_witness :
    volatility [⟨"NTN-F", "2031-01-01", 6, "2024-01-02"⟩] "LTN" = [] :=
  volatility_no_match_empty [⟨"NTN-F", "2031-01-01", 6, "2024-01-02"⟩] "LTN"
    (by intro r hr; simp at hr; subst hr; decide)

/-- C5: any maturity group of the filtered table with fewer than two
observations is mapped to the NaN value (`none`), not to zero and not to an
error; the NaN value sits inside the returned mapping. -/
theorem volatility_small_group_nan (df : List Row) (tp m : String)
    (hm : m ∈ (df.filter (fun r => r.tipo_titulo == tp)).map (fun r => r.data_vencimento))
    (hc : ((df.filter (fun r => r.tipo_titulo == tp)).filter
        (fun r => r.data_vencimento == m)).length < 2) :
    (volatility df tp).lookup m = some none := by
  unfold volatility
  rw [List.lookup_graph _ ((mem_uniqueFirst m _).mpr hm)]
  congr 1
  apply annVol_eq_none_of_short
  rw [List.length_map]
  omega

/-- C5 witness: a maturity with a single LTN observation is present in the
mapping with the NaN value. -/
theorem volatility_small_group_nan_witness :
    (volatility [⟨"LTN", "2030-01-01", 5, "2024-01-02"⟩] "LTN").lookup "2030-01-01"
      = some none :=
  volatility_small_group_nan [⟨"LTN", "2030-01-01", 5, "2024-01-02"⟩] "LTN" "2030-01-01"
    (by decide) (by decide)

/-- The two-row table of claim C1: one maturity, instrument type LTN,
indicative rates 5.0 and 5.1 on consecutive business days in ascending
reference-date order. -/
def twoRowTable : List Row :=
  [⟨"LTN", "2030-01-01", 5, "2024-01-02"⟩,
   ⟨"LTN", "2030-01-01", 51 / 10, "2024-01-03"⟩]

/-- Evaluation of `volatility` on the two-row table: the differenced
log-return series has a single value, so the sample standard deviation
(`N - 1` denominator over one value) is NaN and the stored value is `none`. -/
theorem volatility_twoRowTable_eval :
    volatility twoRowTable "LTN" = [("2030-01-01", none)] := rfl

/-- C1 (counterexample to the claim as stated): on the two-row table the
mapping entry for the shared maturity is not the annualized absolute
log-return difference `|ln 1.051 - ln 1.05| * sqrt 252`; `Series.std`
is the sample standard deviation with the `N - 1` denominator, which is
NaN over the single differenced value. -/
theorem volatility_two_row_claim_false :
    (volatility twoRowTable "LTN").lookup "2030-01-01"
      ≠ some (some (|Real.log 1.051 - Real.log 1.05| * Real.sqrt 252)) := by
  rw [volatility_twoRowTable_eval]
  simp [List.lookup]

/-- C1 (amended): on a table with exactly two rows sharing maturity M and
instrument type LTN, with rates 5.0 and 5.1 on consecutive business days in
ascending reference-date order, `volatility` returns a mapping containing
key M whose value is NaN: the differenced series holds a single value and
the sample standard deviation with the `N - 1` denominator is undefined
there. -/
theorem volatility_two_row_nan :
    (volatility twoRowTable "LTN").lookup "2030-01-01" = some none := by
  rw [volatility_twoRowTable_eval]
  rfl

/-! ## Claims about the business-day sequence -/

theorem bizOffsetBack_le (days : List ℤ) (d : ℤ) (n : ℕ) :
    bizOffsetBack days d n ≤ d := by
  unfold bizOffsetBack
  cases h : ((days.filter (fun x => decide (x ≤ d))).reverse).drop n with
  | nil => simp [List.headD]
  | cons y ys =>
    simp only [List.headD]
    have hy : y ∈ ((days.filter (fun x => decide (x ≤ d))).reverse).drop n := by
      rw [h]; exact List.mem_cons_self _ _
    have hy2 : y ∈ days.filter (fun x => decide (x ≤ d)) :=
      List.mem_reverse.mp (List.drop_subset _ _ hy)
    have hp := List.of_mem_filter hy2
    simpa using hp

theorem getLast?_eq_of_max (m : ℤ) : ∀ l : List ℤ, l.Pairwise (fun a b => a < b) →
    m ∈ l → (∀ x ∈ l, x ≤ m) → l.getLast? = some m
  | [], _, hm, _ => by cases hm
  | [x], _, hm, _ => by
      rcases List.mem_cons.mp hm with rfl | h
      · rfl
      · cases h
  | x :: y :: ys, hp, hm, hle => by
      rw [List.getLast?_cons_cons]
      apply getLast?_eq_of_max m (y :: ys) hp.of_cons
      · rcases List.mem_cons.mp hm with rfl | h
        · exfalso
          have h1 : m < y := List.rel_of_pairwise_cons hp (List.mem_cons_self _ _)
          have h2 : y ≤ m := hle y (List.mem_cons_of_mem _ (List.mem_cons_self _ _))
          omega
        · exact h
      · intro z hz
        exact hle z (List.mem_cons_of_mem _ hz)

/-- C6 (counterexample to the claim as stated): with business days
`{0, 1, 2, 3, 4}` and `today = 6` not a business day, the fetched sequence
`dates_in_range` ends at 4, not at `today`. -/
theorem dates_in_range_last_ne_today :
    (dates_in_range [0, 1, 2, 3, 4] 6 2).getLast? = some 4 ∧
      (dates_in_range [0, 1, 2, 3, 4] 6 2).getLast? ≠ some 6 := by decide

/-- C6 (amended): the fetched business-day sequence is strictly ascending
with no duplicates; its last date equals `today` whenever `today` itself is
a business day of the calendar. -/
theorem dates_in_range_sorted_last (days : List ℤ) (today : ℤ) (n : ℕ)
    (hs : days.Pairwise (fun a b => a < b)) :
    (dates_in_range days today n).Pairwise (fun a b => a < b) ∧
      (today ∈ days → (dates_in_range days today n).getLast? = some today) := by
  constructor
  · exact List.Pairwise.sublist (List.filter_sublist _) hs
  · intro ht
    unfold dates_in_range bizSeq
    apply getLast?_eq_of_max
    · exact List.Pairwise.sublist (List.filter_sublist _) hs
    · rw [List.mem_filter]
      refine ⟨ht, ?_⟩
      simp only [Bool.and_eq_true, decide_eq_true_eq]
      exact ⟨bizOffsetBack_le days today n, le_refl _⟩
    · intro x hx
      have hp := List.of_mem_filter hx
      simp only [Bool.and_eq_true, decide_eq_true_eq] at hp
      exact hp.2

/-- C6 witness: on the concrete calendar `{0, 1, 2, 3}` with `today = 3`
a business day, the sequence is strictly ascending and ends at `today`. -/
theorem dates_in_range_sorted_last_witness :
    (dates_in_range [0, 1, 2, 3] 3 2).Pairwise (fun a b => a < b) ∧
      (dates_in_range [0, 1, 2, 3] 3 2).getLast? = some 3 :=
  ⟨(dates_in_range_sorted_last [0, 1, 2, 3] 3 2 (by decide)).1,
   (dates_in_range_sorted_last [0, 1, 2, 3] 3 2 (by decide)).2 (by decide)⟩

/-! ## Claims about the token manager -/

/-- C2: with the credential file missing, `generate_token` does not fall
through to a token request: building the request at main.py line 54 raises
a `NameError` on the never-assigned `client_id`, with zero network calls,
no token stored and no file written — contradicting the comment at line 47
(`Ignore and fetch new token`) and the specification. -/
theorem generate_token_missing_file_name_error :
    generate_token CredFile.missing 1700000000 ⟨200, some "fresh-token", some 3600, ""⟩
      = { error := some (.nameError "client_id"), token := none,
          networkCalls := 0, written := none } := rfl

/-- C3: for a well-formed credential file whose cached token is nonempty
and expires strictly after the (nonnegative) current time, `generate_token`
performs no network call, writes nothing, succeeds, and stores the cached
token — whatever the token endpoint would have answered. -/
theorem generate_token_cache_hit (c : Credentials) (ti : TokenInfo)
    (cid cs t : String) (e now : ℚ) (resp : TokenResponse)
    (h1 : c.client_id = some cid) (h2 : c.client_secret = some cs)
    (h3 : c.token_info = some ti) (h4 : ti.access_token = some t) (h5 : t ≠ "")
    (h6 : ti.expires_at = some e) (h7 : 0 ≤ now) (h8 : now < e) :
    generate_token (.parsed c) now resp
      = { error := none, token := some t, networkCalls := 0, written := none } := by
  have he : ¬ e = 0 := by intro h; rw [h] at h8; exact absurd h8 (not_lt.mpr h7)
  have hv : cacheValid ti now = true := by
    simp only [cacheValid, h4, h6]
    rw [if_neg h5, if_neg he]
    exact decide_eq_true h8
  simp [generate_token, h1, h2, h3, hv, h4]

/-- C3 witness: a concrete file with a live cached token is reused without
any network call or write. -/
theorem generate_token_cache_hit_witness :
    generate_token
      (.parsed ⟨some "id", some "secret", some ⟨some "cached", some 2000⟩⟩)
      1000 ⟨500, none, none, "unused"⟩
      = { error := none, token := some "cached", networkCalls := 0, written := none } :=
  generate_token_cache_hit
    ⟨some "id", some "secret", some ⟨some "cached", some 2000⟩⟩
    ⟨some "cached", some 2000⟩ "id" "secret" "cached" 2000 1000
    ⟨500, none, none, "unused"⟩ rfl rfl rfl rfl (by decide) rfl (by decide) (by decide)

/-- C4: with a parsed credential file, an invalid or expired cache and a
200/201 endpoint response, `generate_token` issues exactly one request,
stores the access token of the response, and persists credentials that keep
`client_id` and `client_secret` while replacing `token_info` with the new
token and `expires_at = now + expires_in - 60`, where `expires_in` defaults
to 3600 when the response omits it. -/
theorem generate_token_refresh_persists (c : Credentials) (cid cs t : String)
    (now : ℚ) (resp : TokenResponse)
    (h1 : c.client_id = some cid) (h2 : c.client_secret = some cs)
    (hcache : cacheValid (c.token_info.getD {}) now = false)
    (hst : resp.status = 200 ∨ resp.status = 201)
    (hat : resp.access_token = some t) :
    generate_token (.parsed c) now resp
      = { error := none, token := some t, networkCalls := 1,
          written := some ⟨some cid, some cs, some ⟨some t, some (now + resp.expires_in.getD 3600 - 60)⟩⟩ } := by
  have hc : c = { client_id := some cid, client_secret := some cs, token_info := c.token_info } := by
    cases c; simp_all
  rw [hc] at hcache ⊢
  simp only [generate_token, Option.getD]
  rw [if_neg (by simpa using hcache), if_pos hst, hat]

/-- C4 witness: with an expired cache and a 201 response that omits
`expires_in`, the default 3600 yields `expires_at = 100 + 3600 - 60`. -/
theorem generate_token_refresh_persists_witness :
    generate_token
      (.parsed ⟨some "id", some "secret", some ⟨some "old", some 50⟩⟩)
      100 ⟨201, some "fresh", none, ""⟩
      = { error := none, token := some "fresh", networkCalls := 1,
          written := some ⟨some "id", some "secret", some ⟨some "fresh", some (100 + 3600 - 60)⟩⟩ } :=
  generate_token_refresh_persists
    ⟨some "id", some "secret", some ⟨some "old", some 50⟩⟩ "id" "secret" "fresh"
    100 ⟨201, some "fresh", none, ""⟩ rfl rfl (by decide) (Or.inr rfl) rfl

/-- C10: when the token endpoint answers 200/201 without an `access_token`
field, `generate_token` does not raise: it stores `None` as the token and
persists a `token_info` whose `access_token` is null; the failure only
surfaces when `get_data_by_date` later raises its missing-token
precondition error, before issuing any request. -/
theorem token_response_missing_access_token (c : Credentials) (cid cs : String)
    (now : ℚ) (resp : TokenResponse) (dresp : DataResponse)
    (h1 : c.client_id = some cid) (h2 : c.client_secret = some cs)
    (hcache : cacheValid (c.token_info.getD {}) now = false)
    (hst : resp.status = 200 ∨ resp.status = 201)
    (hat : resp.access_token = none) :
    (generate_token (.parsed c) now resp).error = none ∧
    (generate_token (.parsed c) now resp).token = none ∧
    (generate_token (.parsed c) now resp).written
      = some ⟨some cid, some cs, some ⟨none, some (now + resp.expires_in.getD 3600 - 60)⟩⟩ ∧
    (get_data_by_date (generate_token (.parsed c) now resp).token dresp).result
      = .error .tokenNotGenerated ∧
    (get_data_by_date (generate_token (.parsed c) now resp).token dresp).networkCalls = 0 := by
  have hc : c = { client_id := some cid, client_secret := some cs, token_info := c.token_info } := by
    cases c; simp_all
  have hg : generate_token (.parsed c) now resp
      = { error := none, token := none, networkCalls := 1,
          written := some ⟨some cid, some cs, some ⟨none, some (now + resp.expires_in.getD 3600 - 60)⟩⟩ } := by
    rw [hc] at hcache ⊢
    simp only [generate_token, Option.getD]
    rw [if_neg (by simpa using hcache), if_pos hst, hat]
  rw [hg]
  exact ⟨rfl, rfl, rfl, rfl, rfl⟩

/-- C10 witness: a concrete 200 response with no `access_token` yields a
silent success with a null persisted token, and the subsequent data fetch
raises the precondition error with zero network calls. -/
theorem token_response_missing_access_token_witness :
    (generate_token (.parsed ⟨some "id", some "secret", none⟩) 100 ⟨200, none, some 7200, ""⟩).error = none ∧
    (generate_token (.parsed ⟨some "id", some "secret", none⟩) 100 ⟨200, none, some 7200, ""⟩).token = none ∧
    (generate_token (.parsed ⟨some "id", some "secret", none⟩) 100 ⟨200, none, some 7200, ""⟩).written
      = some ⟨some "id", some "secret", some ⟨none, some (100 + 7200 - 60)⟩⟩ ∧
    (get_data_by_date (generate_token (.parsed ⟨some "id", some "secret", none⟩) 100 ⟨200, none, some 7200, ""⟩).token ⟨200, .arr ["x"], ""⟩).result
      = .error .tokenNotGenerated ∧
    (get_data_by_date (generate_token (.parsed ⟨some "id", some "secret", none⟩) 100 ⟨200, none, some 7200, ""⟩).token ⟨200, .arr ["x"], ""⟩).networkCalls = 0 :=
  token_response_missing_access_token ⟨some "id", some "secret", none⟩ "id" "secret"
    100 ⟨200, none, some 7200, ""⟩ ⟨200, .arr ["x"], ""⟩ rfl rfl rfl (Or.inl rfl) rfl

/-! ## Claims about the fetch loop -/

/-- C7: on a non-200 data response, `get_data_by_date` fails with an error
carrying the status code and body, and the surrounding loop aborts: every
date before the failing one is fetched exactly once, the failing date is
fetched once, no later date is fetched, no retry happens, and the run ends
in the error instead of a table. -/
theorem fetch_error_aborts_run (tok : String) (htok : tok ≠ "")
    (respOf : String → DataResponse) (pre : List String) (d : String) (post : List String)
    (hpre : ∀ x ∈ pre, (respOf x).status = 200)
    (hs : (respOf d).status ≠ 200) :
    (get_data_by_date (some tok) (respOf d)).result
        = .error (.dataFetchFailed (respOf d).status (respOf d).body) ∧
    buildTable (fun dt => (get_data_by_date (some tok) (respOf dt)).result) (pre ++ d :: post)
        = (pre ++ [d], .error (.dataFetchFailed (respOf d).status (respOf d).body)) := by
  have hfd : (get_data_by_date (some tok) (respOf d)).result
      = .error (.dataFetchFailed (respOf d).status (respOf d).body) := by
    simp [get_data_by_date, htok, hs]
  refine ⟨hfd, ?_⟩
  induction pre with
  | nil =>
    rw [List.nil_append]
    simp only [buildTable, hfd, List.nil_append]
  | cons x xs ih =>
    have hfx : (get_data_by_date (some tok) (respOf x)).result = .ok (respOf x).payload := by
      simp [get_data_by_date, htok, hpre x (List.mem_cons_self _ _)]
    have ih2 := ih (fun y hy => hpre y (List.mem_cons_of_mem _ hy))
    simp only [List.cons_append, buildTable, hfx]
    rw [List.append_eq, ih2]

/-- The data endpoint of the C7/C8 demonstration scenario: the middle date
fails with HTTP 500, every other date returns one record. -/
def demoRespOf (dt : String) : DataResponse :=
  if dt = "2024-01-03" then ⟨500, .arr [], "internal error"⟩
  else ⟨200, .arr ["r"], ""⟩

/-- C7 witness: fetching three concrete dates where the second returns
HTTP 500 fetches exactly the first two dates and aborts with the error
carrying status 500 and the body. -/
theorem fetch_error_aborts_run_witness :
    (get_data_by_date (some "tok") (demoRespOf "2024-01-03")).result
        = .error (.dataFetchFailed (demoRespOf "2024-01-03").status (demoRespOf "2024-01-03").body) ∧
    buildTable (fun dt => (get_data_by_date (some "tok") (demoRespOf dt)).result)
        (["2024-01-02"] ++ "2024-01-03" :: ["2024-01-04"])
        = (["2024-01-02"] ++ ["2024-01-03"],
           .error (.dataFetchFailed (demoRespOf "2024-01-03").status (demoRespOf "2024-01-03").body)) :=
  fetch_error_aborts_run "tok" (by decide) demoRespOf ["2024-01-02"] "2024-01-03" ["2024-01-04"]
    (by decide) (by decide)

/-! ## Claims about the assembled table -/

theorem tag_of_mem_tagRows (dataOf : String → JsonData) (d : String) (r : MRow)
    (h : r ∈ tagRows dataOf d) : r.data_referencia = d := by
  simp only [tagRows, List.mem_map] at h
  rcases h with ⟨p, _, rfl⟩
  rfl

theorem tag_mem_of_mem_flatten (dataOf : String → JsonData) (ds : List String) (r : MRow)
    (h : r ∈ ((ds.map (tagRows dataOf)).flatten)) : r.data_referencia ∈ ds := by
  rw [List.mem_flatten] at h
  rcases h with ⟨l, hl, hr⟩
  rw [List.mem_map] at hl
  rcases hl with ⟨d, hd, rfl⟩
  rw [tag_of_mem_tagRows _ _ _ hr]
  exact hd

/-- The fetch loop with an everywhere-successful endpoint fetches every
date once, in order, and assembles the per-date tagged blocks in date
order. -/
theorem buildTable_ok (dataOf : String → JsonData) :
    ∀ dates : List String,
      buildTable (fun d => .ok (dataOf d)) dates
        = (dates, .ok ((dates.map (tagRows dataOf)).flatten)) := by
  intro dates
  induction dates with
  | nil => rfl
  | cons d ds ih =>
    simp only [buildTable, ih, List.map_cons, List.flatten_cons]
    rfl

/-- Per-date slice of the assembled table: filtering the table down to one
reference date of the (duplicate-free) date sequence recovers exactly that
fetch result in vendor order. -/
theorem filter_assembled (dataOf : String → JsonData) :
    ∀ dates : List String, dates.Nodup →
      ∀ d ∈ dates,
        ((dates.map (tagRows dataOf)).flatten).filter (fun r => r.data_referencia == d)
          = tagRows dataOf d := by
  intro dates
  induction dates with
  | nil => intro _ d hd; cases hd
  | cons x xs ih =>
    intro hp d hd
    simp only [List.map_cons, List.flatten_cons, List.filter_append]
    rcases List.mem_cons.mp hd with rfl | hd2
    · have h1 : (tagRows dataOf d).filter (fun r => r.data_referencia == d) = tagRows dataOf d := by
        rw [List.filter_eq_self]
        intro r hr
        simp [tag_of_mem_tagRows dataOf d r hr]
      have h2 : ((xs.map (tagRows dataOf)).flatten).filter (fun r => r.data_referencia == d) = [] := by
        rw [List.filter_eq_nil_iff]
        intro r hr
        have hmem := tag_mem_of_mem_flatten dataOf xs r hr
        have hne : d ≠ r.data_referencia := List.rel_of_pairwise_cons hp hmem
        simp only [beq_iff_eq]
        intro hcon
        exact hne hcon.symm
      rw [h1, h2, List.append_nil]
    · have h1 : (tagRows dataOf x).filter (fun r => r.data_referencia == d) = [] := by
        rw [List.filter_eq_nil_iff]
        intro r hr
        have hx : r.data_referencia = x := tag_of_mem_tagRows dataOf x r hr
        have hne : x ≠ d := List.rel_of_pairwise_cons hp hd2
        simp only [beq_iff_eq, hx]
        exact hne
      rw [h1, List.nil_append]
      exact ih (List.Nodup.of_cons hp) d hd2

/-- The reference-date column of the assembled table is sorted by the date
order: whenever relation `R` orders the date sequence pairwise, any two
tags in column order are equal or related by `R`. -/
theorem tags_sorted (dataOf : String → JsonData) (R : String → String → Prop) :
    ∀ dates : List String, dates.Pairwise R →
      (((dates.map (tagRows dataOf)).flatten).map (fun r => r.data_referencia)).Pairwise
        (fun a b => a = b ∨ R a b) := by
  intro dates hp
  rw [List.map_flatten, List.map_map, List.pairwise_flatten]
  constructor
  · intro l hl
    rw [List.mem_map] at hl
    rcases hl with ⟨d, _, rfl⟩
    simp only [Function.comp]
    have hrep : (tagRows dataOf d).map (fun r => r.data_referencia)
        = List.replicate (toRows (dataOf d)).length d := by
      simp [tagRows, List.map_map, Function.comp_def, List.map_const']
    simp only [hrep]
    rw [List.pairwise_replicate]
    exact Or.inr (Or.inl rfl)
  · have hmap : List.Pairwise
        (fun l1 l2 => ∀ a ∈ l1, ∀ b ∈ l2, a = b ∨ R a b)
        (dates.map (fun d => (tagRows dataOf d).map (fun r => r.data_referencia))) := by
      rw [List.pairwise_map]
      refine hp.imp_of_mem ?_
      intro d1 d2 _ _ hr a ha b hb
      have ha2 : a = d1 := by
        rw [List.mem_map] at ha
        rcases ha with ⟨r, hrr, rfl⟩
        exact tag_of_mem_tagRows dataOf d1 r hrr
      have hb2 : b = d2 := by
        rw [List.mem_map] at hb
        rcases hb with ⟨r, hrr, rfl⟩
        exact tag_of_mem_tagRows dataOf d2 r hrr
      rw [ha2, hb2]
      exact Or.inr hr
    simpa [Function.comp_def] using hmap

/-- C8: with every fetch succeeding, the run fetches every date once in
order and assembles the table as the in-order concatenation of the
per-date tagged blocks: every row carries the reference date of the fetch
that produced it; for any relation `R` ordering the (duplicate-free) date
sequence — in particular chronological order — any two reference-date tags
in row order are equal or `R`-related, so all rows of an earlier date
precede all rows of a later date; within one date the vendor record order
is preserved (the slice of the table at one date is exactly that date's
tagged fetch result); and a date with zero records contributes zero rows
without being an error. -/
theorem assemble_table_invariants (dataOf : String → JsonData)
    (R : String → String → Prop) (dates : List String)
    (hnd : dates.Nodup) (hs : dates.Pairwise R) :
    (buildTable (fun d => .ok (dataOf d)) dates).2
        = .ok ((dates.map (tagRows dataOf)).flatten) ∧
    (((dates.map (tagRows dataOf)).flatten).map (fun r => r.data_referencia)).Pairwise
        (fun a b => a = b ∨ R a b) ∧
    (∀ d ∈ dates,
      ((dates.map (tagRows dataOf)).flatten).filter (fun r => r.data_referencia == d)
        = tagRows dataOf d) ∧
    (∀ d ∈ dates, dataOf d = .arr [] →
      ((dates.map (tagRows dataOf)).flatten).filter (fun r => r.data_referencia == d) = []) := by
  refine ⟨by rw [buildTable_ok], tags_sorted dataOf R dates hs,
    filter_assembled dataOf dates hnd, ?_⟩
  intro d hd hz
  rw [filter_assembled dataOf dates hnd d hd, tagRows, hz]
  rfl

/-- The data endpoint of the end-to-end scenario: record sets of sizes
2, 0 and 3 over three consecutive business days. -/
def demoDataOf (dt : String) : JsonData :=
  if dt = "2024-01-02" then .arr ["a1", "a2"]
  else if dt = "2024-01-03" then .arr []
  else .arr ["c1", "c2", "c3"]

/-- The three business days of the end-to-end scenario. -/
def demoDates : List String := ["2024-01-02", "2024-01-03", "2024-01-04"]

/-- Chronological order on the three demonstration dates, tabulated. -/
def demoEarlier (a b : String) : Prop :=
  (a, b) ∈ [("2024-01-02", "2024-01-03"), ("2024-01-02", "2024-01-04"),
            ("2024-01-03", "2024-01-04")]

instance (a b : String) : Decidable (demoEarlier a b) := by
  unfold demoEarlier
  infer_instance

/-- C8 witness: on the concrete 3-day scenario with record sets of sizes
2, 0 and 3, the loop assembles the 5-row table in date order, the
reference-date column follows the chronological order of the dates, and
the empty date contributes no rows. -/
theorem assemble_table_invariants_witness :
    (buildTable (fun d => .ok (demoDataOf d)) demoDates).2
        = .ok ((demoDates.map (tagRows demoDataOf)).flatten) ∧
    (((demoDates.map (tagRows demoDataOf)).flatten).map (fun r => r.data_referencia)).Pairwise
        (fun a b => a = b ∨ demoEarlier a b) ∧
    ((demoDates.map (tagRows demoDataOf)).flatten).filter
        (fun r => r.data_referencia == "2024-01-03") = [] ∧
    ((demoDates.map (tagRows demoDataOf)).flatten).length = 5 :=
  ⟨(assemble_table_invariants demoDataOf demoEarlier demoDates (by decide) (by decide)).1,
   (assemble_table_invariants demoDataOf demoEarlier demoDates (by decide) (by decide)).2.1,
   (assemble_table_invariants demoDataOf demoEarlier demoDates (by decide) (by decide)).2.2.2
     "2024-01-03" (by decide) (by decide),
   by decide⟩
